import Mathlib

/-!
Shallow embedding of the gorilli agentkit action adapters:
- `gorilli_create_vault.ts` (ERC-4626 vault deployment action),
- `gorilli_trade` (asset trade action),
- `gorilli_trade_meme` (Gorillionaire vault BUY/SELL action),
- the ERC-4626 vault-interaction tool, and
- the CDP action registry.

External effects (the Coinbase SDK, ethers, the RPC provider, wall-clock
time) are passed in as explicit outcome parameters; JavaScript exceptions
are modelled by an explicit `JsThrown` type and `Except`.
-/

/-- A JavaScript thrown value: either an `Error` instance carrying a
`message`, or any other thrown value carrying its string coercion. -/
inductive JsThrown where
  | jsError (message : String)
  | nonError (repr : String)
deriving DecidableEq

/-- The expression `error instanceof Error ? error.message : "Unknown error"`
used by `createERC4626Vault` and `gorilliMemeTrade`. -/
def JsThrown.messageOrUnknown : JsThrown → String
  | .jsError m => m
  | .nonError _ => "Unknown error"

/-- Template interpolation of a thrown value, as in `` `... ${error}` ``:
an `Error` named `Error` stringifies as `"Error: " ++ message`; any other
value stringifies as itself. -/
def JsThrown.interpolate : JsThrown → String
  | .jsError m => "Error: " ++ m
  | .nonError r => r

/-- Search for `needle` as a contiguous run inside a character list; this is
the model of JavaScript `String.prototype.includes`. -/
def infixSearch (needle : List Char) : List Char → Bool
  | [] => needle.isEmpty
  | c :: t => needle.isPrefixOf (c :: t) || infixSearch needle t

/-- JavaScript `s.includes(sub)`. -/
def jsIncludes (s sub : String) : Bool :=
  infixSearch sub.data s.data

/-- The character class `[a-fA-F0-9]` of the address regular expression. -/
def isHexCharJs (c : Char) : Bool :=
  ('0' ≤ c && c ≤ '9') || ('a' ≤ c && c ≤ 'f') || ('A' ≤ c && c ≤ 'F')

/-- The anchored test `/^0x[a-fA-F0-9]{40}$/.test s`, shared verbatim by the
`assetAddress` and `feeRecipient` refinements of `CreateVaultInput` and the
`vault_address` and `user_address` regexes of `VaultActionInput`. -/
def ethAddressTest (s : String) : Bool :=
  match s.data with
  | '0' :: 'x' :: rest => rest.length == 40 && rest.all isHexCharJs
  | _ => false

/-- A JavaScript number that is either `NaN` or an exact value (the source
only ever multiplies, divides and floors, so exact rationals are enough). -/
inductive JsNum where
  | nan
  | num (q : Rat)
deriving DecidableEq

/-- Value of a digit string, most significant digit first. -/
def digitsToNat (l : List Char) : Nat :=
  l.foldl (fun a c => a * 10 + (c.toNat - 48)) 0

/-- Model of the JavaScript `Number(string)` coercion, restricted to
optionally negated decimal integer numerals (the only numerals the trade
actions pass around: base-unit token amounts); the empty string coerces to
`0` and every other non-numeral string coerces to `NaN`. -/
def jsNumber (s : String) : JsNum :=
  match s.data with
  | [] => .num 0
  | '-' :: rest =>
    if !rest.isEmpty && rest.all Char.isDigit then .num (-(digitsToNat rest : Int) : Int)
    else .nan
  | l =>
    if l.all Char.isDigit then .num (digitsToNat l : Nat)
    else .nan

/-!
`src/cdp-agentkit-core/typescript/src/actions/cdp/gorilli_create_vault.ts`
-/

/-- The fields of `CreateVaultInput` (after zod's per-field type checks). -/
structure CreateVaultArgs where
  name : String
  symbol : String
  assetAddress : String
  feeRecipient : String
  depositFee : Rat
  withdrawalFee : Rat

/-- The `z.number().min(0).max(100)` checks on `depositFee`. -/
def depositFeeCheck (x : Rat) : Bool :=
  decide (0 ≤ x) && decide (x ≤ 100)

/-- The `z.number().min(0).max(100)` checks on `withdrawalFee`. -/
def withdrawalFeeCheck (x : Rat) : Bool :=
  decide (0 ≤ x) && decide (x ≤ 100)

/-- Validation of the `CreateVaultInput` zod object: both address fields must
pass the `/^0x[a-fA-F0-9]{40}$/` refinement and both fees their bounds;
`name` and `symbol` are unconstrained strings. -/
def CreateVaultInput.validate (a : CreateVaultArgs) : Bool :=
  ethAddressTest a.assetAddress && ethAddressTest a.feeRecipient &&
  depositFeeCheck a.depositFee && withdrawalFeeCheck a.withdrawalFee

/-- Modelled from the spec: the agent framework validates structured inputs
against the declared schema before forwarding them to the handler (the
`CdpTool`/framework wrapper that performs this gating is not under `src/`);
a `none` result means the handler was never invoked. -/
def runValidated {α β : Type} (validators : α → Bool) (handler : α → β) (a : α) : Option β :=
  if validators a then some (handler a) else none

/-- Environment of `createERC4626Vault`: the `PRIVATE_KEY` environment
variable and the combined outcome of deploying the vault contract and
reading its address (`VaultFactory.deploy`/`waitForDeployment`/
`getAddress`), which yields the vault address on success. -/
structure DeployEnv where
  privateKey : Option String
  deployOutcome : Except JsThrown String

/-- The success template literal of `createERC4626Vault`. -/
def createVaultSuccessMessage (args : CreateVaultArgs) (vaultAddress : String) : String :=
  "Successfully deployed ERC-4626 Vault:\n      Name: " ++ args.name ++
  "\n      Symbol: " ++ args.symbol ++
  "\n      Vault Address: " ++ vaultAddress ++
  "\n      Asset Address: " ++ args.assetAddress ++
  "\n      Fee Recipient: " ++ args.feeRecipient ++
  "\n      Deposit Fee: " ++ toString args.depositFee ++
  "%\n      Withdrawal Fee: " ++ toString args.withdrawalFee ++ "%"

/-- Body of the `try` block of `createERC4626Vault`: a missing `PRIVATE_KEY`
throws, then the deployment runs and the success message is returned. -/
def createVaultBody (env : DeployEnv) (args : CreateVaultArgs) : Except JsThrown String :=
  match env.privateKey with
  | none => .error (.jsError "PRIVATE_KEY environment variable is not set")
  | some _ => env.deployOutcome.map (fun vaultAddress => createVaultSuccessMessage args vaultAddress)

/-- `createERC4626Vault`: the `catch` block re-throws every caught error as a
new `Error` whose message carries the `Failed to deploy ERC-4626 Vault: `
prefix. -/
def createERC4626Vault (env : DeployEnv) (args : CreateVaultArgs) : Except JsThrown String :=
  match createVaultBody env args with
  | .ok s => .ok s
  | .error e => .error (.jsError ("Failed to deploy ERC-4626 Vault: " ++ JsThrown.messageOrUnknown e))

/-!
`gorilli_trade` (src/unnamed/part_001)
-/

/-- The fields of `GorilliTradeInput`; `amount` is `z.custom<Amount>()`, an
opaque SDK quantity modelled by its string rendering, which is all the
handler uses it for. -/
structure GorilliTradeArgs where
  amount : String
  fromAssetId : String
  toAssetId : String

/-- Validation of the `GorilliTradeInput` zod object: `z.custom<Amount>()`
with no check and two unconstrained strings, so every input passes. -/
def GorilliTradeInput.validate (_ : GorilliTradeArgs) : Bool :=
  true

/-- Result of `wallet.createTrade(...)` followed by `tradeResult.wait()`:
the to-amount, transaction hash and transaction link read off the result. -/
structure TradeResult where
  toAmount : String
  transactionHash : String
  transactionLink : String

/-- `gorilli_trade`: the whole body is inside `try`; on success the trade
summary template is returned, and the `catch` block returns the
`Error trading assets: ${error}` string. -/
def gorilli_trade (createTradeOutcome : Except JsThrown TradeResult) (args : GorilliTradeArgs) : String :=
  match createTradeOutcome with
  | .ok result =>
    "Gorilli - Traded " ++ args.amount ++ " of " ++ args.fromAssetId ++
    " for " ++ result.toAmount ++ " of " ++ args.toAssetId ++
    ".\nTransaction hash for the trade: " ++ result.transactionHash ++
    "\nTransaction link for the trade: " ++ result.transactionLink
  | .error e => "Error trading assets: " ++ JsThrown.interpolate e

/-!
`gorilli_trade_meme` (src/unnamed/part_002, first file)
-/

/-- `const VAULT_ADDRESS` of the meme-trade action. -/
def VAULT_ADDRESS : String := "0xc6827ce6d60a13a20a86dcac8c9e6d0f84497345"

/-- `const BRETT_ADDRESS`. -/
def BRETT_ADDRESS : String := "0x532f27101965dd16442e59d40670faf5ebb142e4"

/-- `const USDC_ADDRESS`. -/
def USDC_ADDRESS : String := "0x833589fcd6edb6e08f4c7c32d4f71b54bda02913"

/-- The `z.enum(["BUY", "SELL"])` action of `GorilliMemeTradeInput`. -/
inductive MemeAction where
  | BUY
  | SELL
deriving DecidableEq

/-- String rendering of a `MemeAction`, as interpolated into templates. -/
def MemeAction.render : MemeAction → String
  | .BUY => "BUY"
  | .SELL => "SELL"

/-- The fields of `GorilliMemeTradeInput`. -/
structure GorilliMemeTradeArgs where
  action : MemeAction
  amountIn : String
  slippagePercentage : Rat

/-- The `z.number().min(0.1).max(100)` checks on `slippagePercentage`. -/
def slippagePercentageCheck (x : Rat) : Bool :=
  decide ((0.1 : Rat) ≤ x) && decide (x ≤ 100)

/-- Validation of the `GorilliMemeTradeInput` zod object: `action` and
`amountIn` carry no constraint beyond their type. -/
def GorilliMemeTradeInput.validate (a : GorilliMemeTradeArgs) : Bool :=
  slippagePercentageCheck a.slippagePercentage

/-- `const tokenOut = action === "BUY" ? BRETT_ADDRESS : USDC_ADDRESS`. -/
def memeTokenOut : MemeAction → String
  | .BUY => BRETT_ADDRESS
  | .SELL => USDC_ADDRESS

/-- The line
`BigInt(Math.floor(Number(amountIn) * (1 - slippagePercentage / 100)))`.
It runs before the `try` block; when `Number(amountIn)` is `NaN` the product
and floor are `NaN` and the `BigInt` conversion throws a `RangeError`
(an `Error` instance), which therefore propagates out of the handler. -/
def computeMinAmountOut (amountIn : String) (slippagePercentage : Rat) : Except JsThrown Int :=
  match jsNumber amountIn with
  | .nan => .error (.jsError "Cannot convert NaN to a BigInt")
  | .num q => .ok ⌊q * (1 - slippagePercentage / 100)⌋

/-- The argument object of `wallet.invokeContract` in `gorilliMemeTrade`:
the contract address, method name, the four `executeTrade` arguments, and
the `assetId` field (the static `abi` array and the `Decimal` `amount`
field are determined by `amountIn` and carry no extra information). -/
structure InvokeContractRequest where
  contractAddress : String
  method : String
  tokenOut : String
  amountInArg : String
  minAmountOutArg : Int
  deadlineArg : Int
  assetId : String
deriving DecidableEq

/-- The request `gorilliMemeTrade` passes to `wallet.invokeContract`. -/
def memeTradeRequest (tokenOut : String) (amountIn : String) (minAmountOut : Int) (deadline : Int) : InvokeContractRequest :=
  { contractAddress := VAULT_ADDRESS
    method := "executeTrade"
    tokenOut := tokenOut
    amountInArg := amountIn
    minAmountOutArg := minAmountOut
    deadlineArg := deadline
    assetId := "eth" }

/-- Observable outcome of an async handler call: a returned string, or a
propagated (uncaught) thrown value. -/
inductive MemeOutcome where
  | returned (message : String)
  | thrown (e : JsThrown)
deriving DecidableEq

/-- `gorilliMemeTrade`: `tokenOut`, the deadline
(`Math.floor(Date.now() / 1000) + 600`, with the wall clock passed in as
`nowSec`) and `minAmountOut` are computed before the `try` block, so a
throw in `computeMinAmountOut` propagates; inside `try`, the contract is
invoked and awaited (`sdk` is the combined outcome of
`wallet.invokeContract`/`invocation.wait()`/`getTransactionHash()`), and
the `catch` block returns the `Error executing trade: ...` string. -/
def gorilliMemeTrade (sdk : InvokeContractRequest → Except JsThrown String) (nowSec : Int) (args : GorilliMemeTradeArgs) : MemeOutcome :=
  let tokenOut := memeTokenOut args.action
  let deadline := nowSec + 600
  match computeMinAmountOut args.amountIn args.slippagePercentage with
  | .error e => .thrown e
  | .ok minAmountOut =>
    match sdk (memeTradeRequest tokenOut args.amountIn minAmountOut deadline) with
    | .ok txHash =>
      .returned ("Successfully executed " ++ args.action.render ++ " trade. Transaction hash: " ++
        txHash ++ ". Input amount: " ++ args.amountIn ++ ", Minimum output amount: " ++
        toString minAmountOut)
    | .error e => .returned ("Error executing trade: " ++ JsThrown.messageOrUnknown e)

/-!
ERC-4626 vault-interaction tool (src/unnamed/part_002, second file)
-/

/-- The `ERC4626_ABI` signature list. -/
def ERC4626_ABI : List String :=
  [ "function deposit(uint256 assets, address receiver) returns (uint256 shares)"
  , "function withdraw(uint256 assets, address receiver, address owner) returns (uint256 shares)"
  , "function balanceOf(address owner) view returns (uint256)"
  , "function totalAssets() view returns (uint256)"
  , "function totalSupply() view returns (uint256)"
  , "function previewDeposit(uint256 assets) view returns (uint256)"
  , "function previewWithdraw(uint256 assets) view returns (uint256)"
  , "function asset() view returns (address)" ]

/-- The `z.enum(VAULT_ACTIONS)` member type of the vault-interaction tool. -/
inductive VaultAction where
  | deposit
  | withdraw
  | balance
  | previewDeposit
  | previewWithdraw
  | totalAssets
  | totalSupply
deriving DecidableEq

/-- `const VAULT_ACTIONS = [...] as const`. -/
def VAULT_ACTIONS : List VaultAction :=
  [ .deposit, .withdraw, .balance, .previewDeposit, .previewWithdraw, .totalAssets, .totalSupply ]

/-- The fields of `VaultActionInput`; `amount` and `user_address` are
`.optional()`. -/
structure VaultActionArgs where
  vault_address : String
  rpc_url : String
  action : VaultAction
  amount : Option Rat
  user_address : Option String

/-- Validation of the `VaultActionInput` zod object: `vault_address` and (when
present) `user_address` must match `/^0x[a-fA-F0-9]{40}$/`, and `rpc_url` must
pass zod's `.url()` check, whose library-internal test is passed in as
`isUrl`; `amount` carries no constraint beyond being a number. -/
def VaultActionInput.validate (isUrl : String → Bool) (a : VaultActionArgs) : Bool :=
  ethAddressTest a.vault_address && isUrl a.rpc_url &&
  (match a.user_address with
   | none => true
   | some u => ethAddressTest u)

/-- Outcomes of the contract methods the switch dispatches to, one per
`ERC4626_ABI` entry the tool calls; string results stand for the values the
handler immediately passes through `.toString()`/interpolation. -/
structure VaultSdk where
  deposit : Rat → String → Except JsThrown String
  withdraw : Rat → String → String → Except JsThrown String
  balanceOf : String → Except JsThrown String
  previewDeposit : Rat → Except JsThrown String
  previewWithdraw : Rat → Except JsThrown String
  totalAssets : Except JsThrown String
  totalSupply : Except JsThrown String

/-- JavaScript falsiness of the optional `amount` field: `!amount` is true
when `amount` is `undefined` and also when it equals `0`. -/
def amountFalsy : Option Rat → Bool
  | none => true
  | some a => decide (a = 0)

/-- The `try` body of `vaultInteraction`: the seven-case switch over
`action`. Each precondition failure is a `throw new Error(...)`; each
successful SDK call is wrapped into its summary string. The TypeScript
`default` branch is unreachable because `action` is the checked enum. The
`getD` defaults are never used: every SDK call sits under the guard that
proved its arguments present. -/
def vaultBody (sdk : VaultSdk) (action : VaultAction) (amount : Option Rat) (user_address : Option String) : Except JsThrown String :=
  match action with
  | .deposit =>
    if amountFalsy amount || user_address.isNone then
      .error (.jsError "Amount and user address required for deposits")
    else
      (sdk.deposit (amount.getD 0) (user_address.getD "")).map
        (fun tx => "Deposit transaction submitted: " ++ tx)
  | .withdraw =>
    if amountFalsy amount || user_address.isNone then
      .error (.jsError "Amount and user address required for withdrawals")
    else
      (sdk.withdraw (amount.getD 0) (user_address.getD "") (user_address.getD "")).map
        (fun tx => "Withdrawal transaction submitted: " ++ tx)
  | .balance =>
    if user_address.isNone then
      .error (.jsError "User address required for balance queries")
    else
      (sdk.balanceOf (user_address.getD "")).map
        (fun balance => "User vault share balance: " ++ balance)
  | .previewDeposit =>
    if amountFalsy amount then
      .error (.jsError "Amount required for deposit preview")
    else
      (sdk.previewDeposit (amount.getD 0)).map
        (fun shares => "Expected shares for deposit: " ++ shares)
  | .previewWithdraw =>
    if amountFalsy amount then
      .error (.jsError "Amount required for withdrawal preview")
    else
      (sdk.previewWithdraw (amount.getD 0)).map
        (fun assets => "Expected assets for withdrawal: " ++ assets)
  | .totalAssets =>
    sdk.totalAssets.map (fun totalAssets => "Total assets in vault: " ++ totalAssets)
  | .totalSupply =>
    sdk.totalSupply.map (fun totalSupply => "Total vault shares in circulation: " ++ totalSupply)

/-- The `catch` block of `vaultInteraction`: three hard-coded substring
matches on `Error` messages, then the verbatim message with an `Error: `
prefix; a non-`Error` thrown value yields the unknown-error string. -/
def handleVaultError : JsThrown → String
  | .jsError m =>
    if jsIncludes m "insufficient balance" then
      "Error: Insufficient balance for the requested operation"
    else if jsIncludes m "gas required exceeds allowance" then
      "Error: Transaction would fail - gas estimation failed"
    else if jsIncludes m "network" then
      "Error: RPC connection failed - please check your connection and try again"
    else
      "Error: " ++ m
  | .nonError _ => "An unknown error occurred"

/-- `vaultInteraction`: the whole body, including the `new Contract(...)`
construction, sits inside `try`, so the function always returns a string. -/
def vaultInteraction (sdk : VaultSdk) (vault_address rpc_url : String) (action : VaultAction) (amount : Option Rat) (user_address : Option String) : String :=
  match vaultBody sdk action amount user_address with
  | .ok s => s
  | .error e => handleVaultError e

/-!
Action registry (src/unnamed/part_000, second file)
-/

/-- A CDP action tuple: a name, a description, an input schema, and a
handler; the schema and handler types vary per action. -/
structure CdpActionRecord (Schema : Type) (Func : Type) where
  name : String
  description : String
  argsSchema : Schema
  func : Func

/-- The `CREATE_VAULT_PROMPT` description string. -/
def CREATE_VAULT_PROMPT : String :=
  "\nThis tool allows users to create an ERC-4626 vault. ERC-4626 is a tokenized vault standard for yield-bearing assets in DeFi. Use this tool when a user needs to deploy a new vault for managing assets efficiently.\n"

/-- The `CreateERC4626VaultAction` instance. -/
def CreateERC4626VaultAction : CdpActionRecord (CreateVaultArgs → Bool) (DeployEnv → CreateVaultArgs → Except JsThrown String) :=
  { name := "gorilli_create_erc4626_vault"
    description := CREATE_VAULT_PROMPT
    argsSchema := CreateVaultInput.validate
    func := createERC4626Vault }

/-- The `GorilliTradeAction` instance (description abridged to its first
line; the claims do not constrain prompt contents). -/
def GorilliTradeAction : CdpActionRecord (GorilliTradeArgs → Bool) (Except JsThrown TradeResult → GorilliTradeArgs → String) :=
  { name := "gorilli_trade"
    description := "\nThis tool will trade a specified amount of a 'from asset' to a 'to asset' for the wallet.\n"
    argsSchema := GorilliTradeInput.validate
    func := gorilli_trade }

/-- The `GorilliMemeTradeAction` instance (description abridged to its first
line). -/
def GorilliMemeTradeAction : CdpActionRecord (GorilliMemeTradeArgs → Bool) ((InvokeContractRequest → Except JsThrown String) → Int → GorilliMemeTradeArgs → MemeOutcome) :=
  { name := "gorilli_trade_meme"
    description := "\nThis tool executes trades in the Gorillionaire Vault on Base network.\n"
    argsSchema := GorilliMemeTradeInput.validate
    func := gorilliMemeTrade }

/-- `getAllCdpActions`: the fixed list of the thirteen action classes
instantiated in the registry file, identified by class name (ten of the
classes live outside `src/`; only their instantiation is in the registry). -/
def getAllCdpActions : List String :=
  [ "GetWalletDetailsAction"
  , "DeployNftAction"
  , "DeployTokenAction"
  , "GetBalanceAction"
  , "MintNftAction"
  , "RegisterBasenameAction"
  , "RequestFaucetFundsAction"
  , "TradeAction"
  , "TransferAction"
  , "WrapEthAction"
  , "CreateERC4626VaultAction"
  , "GorilliTradeAction"
  , "GorilliMemeTradeAction" ]

/-- `export const CDP_ACTIONS = getAllCdpActions().concat(WOW_ACTIONS)`;
`WOW_ACTIONS` is imported from `./defi/wow`, which is outside `src/`, so it
is a parameter. -/
def CDP_ACTIONS (WOW_ACTIONS : List String) : List String :=
  getAllCdpActions ++ WOW_ACTIONS

/-- A sample SDK whose methods all succeed, used to instantiate theorems at
concrete inputs. -/
def sampleVaultSdk : VaultSdk :=
  { deposit := fun _ _ => .ok "0xd1"
    withdraw := fun _ _ _ => .ok "0xd2"
    balanceOf := fun _ => .ok "7"
    previewDeposit := fun _ => .ok "3"
    previewWithdraw := fun _ => .ok "4"
    totalAssets := .ok "5"
    totalSupply := .ok "6" }

/-!
Helper lemmas: the substring search agrees with `List.IsInfix`, and
concatenation preserves containment.
-/

theorem infix_skip {α : Type} (a : List α) {l t : List α} (h : l <:+: t) : l <:+: a ++ t := by
  obtain ⟨u, v, huv⟩ := h
  exact ⟨a ++ u, v, by rw [← huv]; simp⟩

theorem infix_cons_split {α : Type} [DecidableEq α] {n t : List α} {c : α} :
    n <:+: c :: t ↔ n <+: c :: t ∨ n <:+: t := by
  constructor
  · rintro ⟨s, u, he⟩
    cases s with
    | nil => exact Or.inl ⟨u, by simpa using he⟩
    | cons a s' =>
      right
      injection he with h1 h2
      exact ⟨s', u, h2⟩
  · rintro (⟨u, he⟩ | hi)
    · exact ⟨[], u, he⟩
    · exact List.infix_cons hi

theorem infixSearch_iff (n : List Char) : ∀ h : List Char, infixSearch n h = true ↔ n <:+: h := by
  intro h
  induction h with
  | nil =>
    simp [infixSearch, List.isEmpty_iff]
  | cons c t ih =>
    rw [infixSearch, Bool.or_eq_true, List.isPrefixOf_iff_prefix, ih, infix_cons_split]

theorem jsIncludes_iff {s sub : String} : jsIncludes s sub = true ↔ sub.data <:+: s.data :=
  infixSearch_iff sub.data s.data

theorem jsIncludes_self (s : String) : jsIncludes s s = true :=
  jsIncludes_iff.mpr ⟨[], [], by simp⟩

theorem jsIncludes_append_of_left {s sub : String} (t : String) (h : jsIncludes s sub = true) :
    jsIncludes (s ++ t) sub = true := by
  rw [jsIncludes_iff] at h ⊢
  obtain ⟨u, v, huv⟩ := h
  exact ⟨u, v ++ t.data, by rw [String.data_append, ← huv]; simp⟩

theorem jsIncludes_append_of_right {t sub : String} (s : String) (h : jsIncludes t sub = true) :
    jsIncludes (s ++ t) sub = true := by
  rw [jsIncludes_iff] at h ⊢
  rw [String.data_append]
  exact infix_skip s.data h

/-!
Helper lemmas: concrete evaluations whose rational arithmetic the kernel
does not reduce directly.
-/

theorem computeMinAmountOut_eval : computeMinAmountOut "1000" 1 = .ok 990 := by
  have h : jsNumber "1000" = .num 1000 := by decide
  simp only [computeMinAmountOut, h]
  norm_num

theorem slippagePercentageCheck_one : slippagePercentageCheck 1 = true := by
  simp only [slippagePercentageCheck, Bool.and_eq_true, decide_eq_true_iff]
  norm_num

/-- The address regular expression accepts exactly the strings made of the
`0x` prefix followed by exactly forty hexadecimal characters. -/
theorem ethAddressTest_iff (s : String) :
    ethAddressTest s = true ↔
    ∃ t : String, s = "0x" ++ t ∧ t.length = 40 ∧ ∀ c ∈ t.data, isHexCharJs c = true := by
  constructor
  · intro hm
    unfold ethAddressTest at hm
    split at hm
    next rest heq =>
      rw [Bool.and_eq_true] at hm
      refine ⟨String.mk rest, ?_, ?_, ?_⟩
      · apply String.ext
        rw [String.data_append, heq]
        rfl
      · show rest.length = 40
        simpa using hm.1
      · exact List.all_eq_true.mp hm.2
    next =>
      cases hm
  · rintro ⟨t, rfl, hlen, hhex⟩
    have he : ethAddressTest ("0x" ++ t) = ((t.data.length == 40) && t.data.all isHexCharJs) := rfl
    rw [he, Bool.and_eq_true]
    constructor
    · have h40 : t.data.length = 40 := hlen
      simp [h40]
    · exact List.all_eq_true.mpr hhex

/-- Claim C2: for every string `s`, the input schemas accept `s` as an address
field (`assetAddress` and `feeRecipient` of `CreateVaultInput`;
`vault_address` and `user_address` of `VaultActionInput`) if and only if `s`
matches `^0x[a-fA-F0-9]{40}$` (a `0x` prefix followed by exactly forty
hexadecimal characters); any other string is rejected at validation, before
any SDK call (the handler is never invoked). -/
theorem claim_C2 :
    (∀ s : String, ethAddressTest s = true ↔
      ∃ t : String, s = "0x" ++ t ∧ t.length = 40 ∧ ∀ c ∈ t.data, isHexCharJs c = true)
  ∧ (∀ a : CreateVaultArgs, CreateVaultInput.validate a = true →
      ethAddressTest a.assetAddress = true ∧ ethAddressTest a.feeRecipient = true)
  ∧ (∀ (isUrl : String → Bool) (a : VaultActionArgs), VaultActionInput.validate isUrl a = true →
      ethAddressTest a.vault_address = true ∧
      ∀ u : String, a.user_address = some u → ethAddressTest u = true)
  ∧ (∀ (a : CreateVaultArgs) (handler : CreateVaultArgs → Except JsThrown String),
      ethAddressTest a.assetAddress = false ∨ ethAddressTest a.feeRecipient = false →
      runValidated CreateVaultInput.validate handler a = none)
  ∧ (∀ (isUrl : String → Bool) (a : VaultActionArgs) (handler : VaultActionArgs → String),
      ethAddressTest a.vault_address = false →
      runValidated (VaultActionInput.validate isUrl) handler a = none) := by
  refine ⟨ethAddressTest_iff, ?_, ?_, ?_, ?_⟩
  · intro a h
    simp only [CreateVaultInput.validate, Bool.and_eq_true] at h
    exact ⟨h.1.1.1, h.1.1.2⟩
  · intro isUrl a h
    simp only [VaultActionInput.validate, Bool.and_eq_true] at h
    refine ⟨h.1.1, ?_⟩
    intro u hu
    have := h.2
    rw [hu] at this
    exact this
  · intro a handler h
    have hv : CreateVaultInput.validate a = false := by
      rcases h with h | h <;> simp [CreateVaultInput.validate, h]
    simp [runValidated, hv]
  · intro isUrl a handler h
    have hv : VaultActionInput.validate isUrl a = false := by
      simp [VaultActionInput.validate, h]
    simp [runValidated, hv]

/-- Claim C2 witness: the pattern characterization, acceptance and rejection
at concrete inputs. -/
theorem claim_C2_witness :
    (∃ t : String, "0x532f27101965dd16442e59d40670faf5ebb142e4" = "0x" ++ t ∧
      t.length = 40 ∧ ∀ c ∈ t.data, isHexCharJs c = true)
  ∧ (ethAddressTest "0x833589fcd6edb6e08f4c7c32d4f71b54bda02913" = true ∧
      ethAddressTest "0x532f27101965dd16442e59d40670faf5ebb142e4" = true)
  ∧ runValidated CreateVaultInput.validate (createERC4626Vault { privateKey := some "k", deployOutcome := .ok "0xv" })
      { name := "V", symbol := "VS", assetAddress := "not-an-address"
        feeRecipient := "0x532f27101965dd16442e59d40670faf5ebb142e4"
        depositFee := 5, withdrawalFee := 5 } = none
  ∧ runValidated (VaultActionInput.validate (fun _ => true)) (fun a => vaultInteraction sampleVaultSdk a.vault_address a.rpc_url a.action a.amount a.user_address)
      { vault_address := "0x12345", rpc_url := "https://rpc", action := .balance
        amount := none, user_address := none } = none := by
  refine ⟨?_, ?_, ?_, ?_⟩
  · exact (claim_C2.1 "0x532f27101965dd16442e59d40670faf5ebb142e4").mp (by decide)
  · exact claim_C2.2.1 { name := "V", symbol := "VS", assetAddress := "0x833589fcd6edb6e08f4c7c32d4f71b54bda02913", feeRecipient := "0x532f27101965dd16442e59d40670faf5ebb142e4", depositFee := 5, withdrawalFee := 5 } (by decide)
  · exact claim_C2.2.2.2.1 _ _ (Or.inl (by decide))
  · exact claim_C2.2.2.2.2 _ _ _ (by decide)

/-- Claim C4: for every number `x`, the `CreateVaultInput` schema accepts `x`
as `depositFee` (respectively `withdrawalFee`) if and only if
`0 <= x <= 100`; out-of-bounds values are rejected at validation and the
handler is never invoked on them. -/
theorem claim_C4 :
    (∀ x : Rat, depositFeeCheck x = true ↔ 0 ≤ x ∧ x ≤ 100)
  ∧ (∀ x : Rat, withdrawalFeeCheck x = true ↔ 0 ≤ x ∧ x ≤ 100)
  ∧ (∀ (a : CreateVaultArgs) (handler : CreateVaultArgs → Except JsThrown String),
      ¬(0 ≤ a.depositFee ∧ a.depositFee ≤ 100) ∨ ¬(0 ≤ a.withdrawalFee ∧ a.withdrawalFee ≤ 100) →
      runValidated CreateVaultInput.validate handler a = none) := by
  have hdep : ∀ x : Rat, depositFeeCheck x = true ↔ 0 ≤ x ∧ x ≤ 100 := by
    intro x
    simp [depositFeeCheck]
  have hwd : ∀ x : Rat, withdrawalFeeCheck x = true ↔ 0 ≤ x ∧ x ≤ 100 := by
    intro x
    simp [withdrawalFeeCheck]
  refine ⟨hdep, hwd, ?_⟩
  intro a handler h
  have hv : CreateVaultInput.validate a = false := by
    rcases h with h | h
    · have : depositFeeCheck a.depositFee = false := by
        rw [← Bool.not_eq_true]
        intro hc
        exact h ((hdep a.depositFee).mp hc)
      simp [CreateVaultInput.validate, this]
    · have : withdrawalFeeCheck a.withdrawalFee = false := by
        rw [← Bool.not_eq_true]
        intro hc
        exact h ((hwd a.withdrawalFee).mp hc)
      simp [CreateVaultInput.validate, this]
  simp [runValidated, hv]

/-- Claim C4 witness: a deposit fee of `101` is rejected and the handler is
never invoked. -/
theorem claim_C4_witness :
    runValidated CreateVaultInput.validate (createERC4626Vault { privateKey := some "k", deployOutcome := .ok "0xv" })
      { name := "V", symbol := "VS"
        assetAddress := "0x833589fcd6edb6e08f4c7c32d4f71b54bda02913"
        feeRecipient := "0x532f27101965dd16442e59d40670faf5ebb142e4"
        depositFee := 101, withdrawalFee := 5 } = none :=
  claim_C4.2.2 _ _ (Or.inl (by intro hc; exact absurd hc.2 (by decide)))

/-- Claim C5: for every number `x`, the `GorilliMemeTradeInput` schema accepts
`x` as `slippagePercentage` if and only if `0.1 <= x <= 100`; in particular
`0` and any value above `100` are rejected at validation. -/
theorem claim_C5 :
    (∀ x : Rat, slippagePercentageCheck x = true ↔ (0.1 : Rat) ≤ x ∧ x ≤ 100)
  ∧ (∀ a : GorilliMemeTradeArgs,
      GorilliMemeTradeInput.validate a = slippagePercentageCheck a.slippagePercentage)
  ∧ slippagePercentageCheck 0 = false
  ∧ (∀ x : Rat, 100 < x → slippagePercentageCheck x = false) := by
  have hiff : ∀ x : Rat, slippagePercentageCheck x = true ↔ (0.1 : Rat) ≤ x ∧ x ≤ 100 := by
    intro x
    simp [slippagePercentageCheck]
  refine ⟨hiff, fun a => rfl, ?_, ?_⟩
  · rw [← Bool.not_eq_true]
    intro hc
    have := (hiff 0).mp hc
    norm_num at this
  · intro x hx
    rw [← Bool.not_eq_true]
    intro hc
    exact absurd ((hiff x).mp hc).2 (not_le.mpr hx)

/-- Claim C5 witness: slippage `101` is rejected, `1` is accepted. -/
theorem claim_C5_witness :
    slippagePercentageCheck 101 = false ∧ ((0.1 : Rat) ≤ 1 ∧ (1 : Rat) ≤ 100) :=
  ⟨claim_C5.2.2.2 101 (by norm_num), (claim_C5.1 1).mp slippagePercentageCheck_one⟩

/-- Claim C1 counterexample: `gorilliMemeTrade` can propagate an exception.
With the schema-valid input `action = BUY`, `amountIn = "abc"`,
`slippagePercentage = 1`, the pre-`try` line
`BigInt(Math.floor(Number("abc") * (1 - 1/100)))` throws a `RangeError`
(`Number("abc")` is `NaN`), so the handler's outcome is a thrown exception,
not a returned error string. -/
theorem claim_C1_counterexample :
    gorilliMemeTrade (fun _ => .ok "0xhash") 0
      { action := .BUY, amountIn := "abc", slippagePercentage := 1 } =
    .thrown (.jsError "Cannot convert NaN to a BigInt") := rfl

/-- Claim C1 (amended): `createERC4626Vault` re-throws any caught error as a
new `Error` prefixed with `Failed to deploy ERC-4626 Vault: `;
`gorilli_trade` and `vaultInteraction` never propagate an exception and
return an error string on every erroring SDK call; `gorilliMemeTrade`
returns an error string for every error raised during the SDK call, but its
pre-`try` minimum-output computation can throw and propagate (see the
counterexample), so the never-propagates guarantee holds only once that
computation has succeeded. -/
theorem claim_C1_amended :
    (∀ (pk : String) (args : CreateVaultArgs) (e : JsThrown),
      createERC4626Vault { privateKey := some pk, deployOutcome := .error e } args =
        .error (.jsError ("Failed to deploy ERC-4626 Vault: " ++ e.messageOrUnknown)))
  ∧ (∀ (e : JsThrown) (args : GorilliTradeArgs),
      gorilli_trade (.error e) args = "Error trading assets: " ++ e.interpolate)
  ∧ (∀ (sdk : VaultSdk) (va ru : String) (action : VaultAction)
      (amount : Option Rat) (user : Option String) (e : JsThrown),
      vaultBody sdk action amount user = .error e →
      vaultInteraction sdk va ru action amount user = handleVaultError e)
  ∧ (∀ (nowSec : Int) (args : GorilliMemeTradeArgs) (n : Int) (e : JsThrown),
      computeMinAmountOut args.amountIn args.slippagePercentage = .ok n →
      gorilliMemeTrade (fun _ => .error e) nowSec args =
        .returned ("Error executing trade: " ++ e.messageOrUnknown)) := by
  refine ⟨?_, ?_, ?_, ?_⟩
  · intro pk args e
    simp [createERC4626Vault, createVaultBody, Except.map]
  · intro e args
    simp [gorilli_trade]
  · intro sdk va ru action amount user e h
    simp [vaultInteraction, h]
  · intro nowSec args n e h
    simp [gorilliMemeTrade, h]

/-- Claim C1 (amended) witness: the four handlers at concrete erroring SDK
calls. -/
theorem claim_C1_amended_witness :
    createERC4626Vault { privateKey := some "0xkey", deployOutcome := .error (.jsError "boom") }
      { name := "V", symbol := "VS", assetAddress := "0x833589fcd6edb6e08f4c7c32d4f71b54bda02913", feeRecipient := "0x532f27101965dd16442e59d40670faf5ebb142e4", depositFee := 5, withdrawalFee := 5 } =
      .error (.jsError "Failed to deploy ERC-4626 Vault: boom")
  ∧ gorilli_trade (.error (.nonError "42")) { amount := "1", fromAssetId := "usdc", toAssetId := "brett" } =
      "Error trading assets: 42"
  ∧ vaultInteraction sampleVaultSdk "0xv" "https://rpc" .previewDeposit none none =
      handleVaultError (.jsError "Amount required for deposit preview")
  ∧ gorilliMemeTrade (fun _ => .error (.jsError "execution reverted")) 0
      { action := .SELL, amountIn := "1000", slippagePercentage := 1 } =
      .returned "Error executing trade: execution reverted" := by
  refine ⟨?_, ?_, ?_, ?_⟩
  · exact (claim_C1_amended.1 "0xkey" _ (.jsError "boom")).trans
      (congrArg (fun s => Except.error (JsThrown.jsError s)) (by decide))
  · exact (claim_C1_amended.2.1 (.nonError "42") _).trans (by decide)
  · exact claim_C1_amended.2.2.1 sampleVaultSdk "0xv" "https://rpc" .previewDeposit none none
      (.jsError "Amount required for deposit preview") rfl
  · exact (claim_C1_amended.2.2.2 0 _ 990 (.jsError "execution reverted") computeMinAmountOut_eval).trans
      (by decide)

/-- Claim C3: the `catch` block of `vaultInteraction` maps a caught `Error`
whose message contains `insufficient balance` to the fixed
insufficient-balance string, else one containing
`gas required exceeds allowance` to the fixed gas-estimation string, else
one containing `network` to the fixed RPC-connection string, and any other
`Error` to `Error: ` followed by the message verbatim; a non-`Error` thrown
value yields `An unknown error occurred`. -/
theorem claim_C3 :
    (∀ (sdk : VaultSdk) (va ru : String) (action : VaultAction)
      (amount : Option Rat) (user : Option String) (e : JsThrown),
      vaultBody sdk action amount user = .error e →
      vaultInteraction sdk va ru action amount user = handleVaultError e)
  ∧ (∀ m : String, jsIncludes m "insufficient balance" = true →
      handleVaultError (.jsError m) = "Error: Insufficient balance for the requested operation")
  ∧ (∀ m : String, jsIncludes m "insufficient balance" = false →
      jsIncludes m "gas required exceeds allowance" = true →
      handleVaultError (.jsError m) = "Error: Transaction would fail - gas estimation failed")
  ∧ (∀ m : String, jsIncludes m "insufficient balance" = false →
      jsIncludes m "gas required exceeds allowance" = false →
      jsIncludes m "network" = true →
      handleVaultError (.jsError m) =
        "Error: RPC connection failed - please check your connection and try again")
  ∧ (∀ m : String, jsIncludes m "insufficient balance" = false →
      jsIncludes m "gas required exceeds allowance" = false →
      jsIncludes m "network" = false →
      handleVaultError (.jsError m) = "Error: " ++ m)
  ∧ (∀ r : String, handleVaultError (.nonError r) = "An unknown error occurred") := by
  refine ⟨?_, ?_, ?_, ?_, ?_, fun r => rfl⟩
  · intro sdk va ru action amount user e h
    simp [vaultInteraction, h]
  · intro m h1
    simp [handleVaultError, h1]
  · intro m h1 h2
    simp [handleVaultError, h1, h2]
  · intro m h1 h2 h3
    simp [handleVaultError, h1, h2, h3]
  · intro m h1 h2 h3
    simp [handleVaultError, h1, h2, h3]

/-- Claim C3 witness: the error mapping at concrete thrown values, and the
`catch` wiring at a concrete erroring call. -/
theorem claim_C3_witness :
    vaultInteraction sampleVaultSdk "0xv" "https://rpc" .balance (some 1) none =
      handleVaultError (.jsError "User address required for balance queries")
  ∧ handleVaultError (.jsError "transfer failed: insufficient balance in account") =
      "Error: Insufficient balance for the requested operation"
  ∧ handleVaultError (.jsError "gas required exceeds allowance (0)") =
      "Error: Transaction would fail - gas estimation failed"
  ∧ handleVaultError (.jsError "could not detect network") =
      "Error: RPC connection failed - please check your connection and try again"
  ∧ handleVaultError (.jsError "execution reverted") = "Error: execution reverted"
  ∧ handleVaultError (.nonError "string thrown") = "An unknown error occurred" := by
  refine ⟨?_, ?_, ?_, ?_, ?_, ?_⟩
  · exact claim_C3.1 sampleVaultSdk "0xv" "https://rpc" .balance (some 1) none
      (.jsError "User address required for balance queries") rfl
  · exact claim_C3.2.1 "transfer failed: insufficient balance in account" (by decide)
  · exact claim_C3.2.2.1 "gas required exceeds allowance (0)" (by decide) (by decide)
  · exact claim_C3.2.2.2.1 "could not detect network" (by decide) (by decide) (by decide)
  · exact (claim_C3.2.2.2.2.1 "execution reverted" (by decide) (by decide) (by decide)).trans (by decide)
  · exact claim_C3.2.2.2.2.2 "string thrown"

/-- Claim C7 counterexample: the set of supported vault actions the
vault-interaction tool dispatches over does not have twelve cases — the
`VAULT_ACTIONS` enum has length seven. -/
theorem claim_C7_counterexample : ¬ (VAULT_ACTIONS.length = 12) := by
  decide

/-- Claim C7 (amended): the vault-interaction tool's dispatch is a
seven-branch switch over the `action` enum (plus an unreachable `default`),
each branch forwarding to a single SDK method call; the set of supported
vault actions has seven cases and the enum covers `VAULT_ACTIONS`
exactly. -/
theorem claim_C7_amended :
    VAULT_ACTIONS.length = 7 ∧ ∀ a : VaultAction, a ∈ VAULT_ACTIONS := by
  refine ⟨by decide, ?_⟩
  intro a
  cases a <;> simp [VAULT_ACTIONS]

/-- Claim C8: the action registry is a static list built once and never
mutated (the model is a pure constant): `getAllCdpActions` is the fixed
sequence of thirteen action instances, `CDP_ACTIONS` is exactly that
sequence concatenated with `WOW_ACTIONS`, and the three in-repo action
records each carry their `name`, `description`, `argsSchema` and `func`
fields. -/
theorem claim_C8 :
    getAllCdpActions =
      [ "GetWalletDetailsAction", "DeployNftAction", "DeployTokenAction", "GetBalanceAction"
      , "MintNftAction", "RegisterBasenameAction", "RequestFaucetFundsAction", "TradeAction"
      , "TransferAction", "WrapEthAction", "CreateERC4626VaultAction", "GorilliTradeAction"
      , "GorilliMemeTradeAction" ]
  ∧ getAllCdpActions.length = 13
  ∧ (∀ WOW_ACTIONS : List String, CDP_ACTIONS WOW_ACTIONS = getAllCdpActions ++ WOW_ACTIONS)
  ∧ CreateERC4626VaultAction.name = "gorilli_create_erc4626_vault"
  ∧ CreateERC4626VaultAction.description = CREATE_VAULT_PROMPT
  ∧ CreateERC4626VaultAction.argsSchema = CreateVaultInput.validate
  ∧ CreateERC4626VaultAction.func = createERC4626Vault
  ∧ GorilliTradeAction.name = "gorilli_trade"
  ∧ GorilliTradeAction.argsSchema = GorilliTradeInput.validate
  ∧ GorilliTradeAction.func = gorilli_trade
  ∧ GorilliMemeTradeAction.name = "gorilli_trade_meme"
  ∧ GorilliMemeTradeAction.argsSchema = GorilliMemeTradeInput.validate
  ∧ GorilliMemeTradeAction.func = gorilliMemeTrade :=
  ⟨rfl, rfl, fun _ => rfl, rfl, rfl, rfl, rfl, rfl, rfl, rfl, rfl, rfl, rfl⟩

/-- Claim C9: `vaultInteraction` enforces per-action preconditions before any
contract call: `deposit`/`withdraw` with a missing or zero `amount` or a
missing `user_address` return the fixed requirement error string (an amount
of exactly `0` is rejected as if missing, because `!amount` is true at
`0`); `balance` without `user_address` and `previewDeposit`/
`previewWithdraw` without a non-zero `amount` return an error string naming
the missing requirement. In each case the result is the same for every
`sdk`, so no SDK contract method is consulted. -/
theorem claim_C9 :
    ∀ (sdk : VaultSdk) (va ru : String) (amount : Option Rat) (user : Option String),
    ((amount = none ∨ amount = some 0 ∨ user = none) →
        vaultInteraction sdk va ru .deposit amount user =
          "Error: Amount and user address required for deposits"
      ∧ vaultInteraction sdk va ru .withdraw amount user =
          "Error: Amount and user address required for withdrawals")
  ∧ (user = none →
      vaultInteraction sdk va ru .balance amount user =
        "Error: User address required for balance queries")
  ∧ ((amount = none ∨ amount = some 0) →
        vaultInteraction sdk va ru .previewDeposit amount user =
          "Error: Amount required for deposit preview"
      ∧ vaultInteraction sdk va ru .previewWithdraw amount user =
          "Error: Amount required for withdrawal preview") := by
  intro sdk va ru amount user
  have e1 : handleVaultError (.jsError "Amount and user address required for deposits") =
      "Error: Amount and user address required for deposits" := by decide
  have e2 : handleVaultError (.jsError "Amount and user address required for withdrawals") =
      "Error: Amount and user address required for withdrawals" := by decide
  have e3 : handleVaultError (.jsError "User address required for balance queries") =
      "Error: User address required for balance queries" := by decide
  have e4 : handleVaultError (.jsError "Amount required for deposit preview") =
      "Error: Amount required for deposit preview" := by decide
  have e5 : handleVaultError (.jsError "Amount required for withdrawal preview") =
      "Error: Amount required for withdrawal preview" := by decide
  refine ⟨?_, ?_, ?_⟩
  · rintro (rfl | rfl | rfl) <;>
      constructor <;>
      simp [vaultInteraction, vaultBody, amountFalsy, e1, e2]
  · rintro rfl
    simp [vaultInteraction, vaultBody, e3]
  · rintro (rfl | rfl) <;>
      constructor <;>
      simp [vaultInteraction, vaultBody, amountFalsy, e4, e5]

/-- Claim C9 witness: the preconditions at concrete inputs — a zero amount
and a missing user address. -/
theorem claim_C9_witness :
    vaultInteraction sampleVaultSdk "0xv" "https://rpc" .deposit (some 0) (some "0xu") =
      "Error: Amount and user address required for deposits"
  ∧ vaultInteraction sampleVaultSdk "0xv" "https://rpc" .withdraw (some 0) (some "0xu") =
      "Error: Amount and user address required for withdrawals"
  ∧ vaultInteraction sampleVaultSdk "0xv" "https://rpc" .balance (some 1) none =
      "Error: User address required for balance queries"
  ∧ vaultInteraction sampleVaultSdk "0xv" "https://rpc" .previewDeposit (some 0) (some "0xu") =
      "Error: Amount required for deposit preview"
  ∧ vaultInteraction sampleVaultSdk "0xv" "https://rpc" .previewWithdraw none (some "0xu") =
      "Error: Amount required for withdrawal preview" := by
  have h1 := (claim_C9 sampleVaultSdk "0xv" "https://rpc" (some 0) (some "0xu")).1
    (Or.inr (Or.inl rfl))
  have h2 := (claim_C9 sampleVaultSdk "0xv" "https://rpc" (some 1) none).2.1 rfl
  have h3 := (claim_C9 sampleVaultSdk "0xv" "https://rpc" (some 0) (some "0xu")).2.2
    (Or.inr rfl)
  have h4 := (claim_C9 sampleVaultSdk "0xv" "https://rpc" none (some "0xu")).2.2
    (Or.inl rfl)
  exact ⟨h1.1, h1.2, h2, h3.1, h4.2⟩

/-- Claim C10: every contract invocation issued by `gorilliMemeTrade` targets
the fixed vault address with method `executeTrade`; its `tokenOut` argument
is the BRETT address exactly when the action is `BUY` and the USDC address
exactly when the action is `SELL`; and the handler's behaviour depends on
the SDK only at that one request. -/
theorem claim_C10 :
    (∀ (action : MemeAction) (amountIn : String) (minAmountOut deadline : Int),
      (memeTradeRequest (memeTokenOut action) amountIn minAmountOut deadline).contractAddress =
          VAULT_ADDRESS
      ∧ (memeTradeRequest (memeTokenOut action) amountIn minAmountOut deadline).method =
          "executeTrade"
      ∧ ((memeTradeRequest (memeTokenOut action) amountIn minAmountOut deadline).tokenOut =
          BRETT_ADDRESS ↔ action = .BUY)
      ∧ ((memeTradeRequest (memeTokenOut action) amountIn minAmountOut deadline).tokenOut =
          USDC_ADDRESS ↔ action = .SELL))
  ∧ (∀ (sdk : InvokeContractRequest → Except JsThrown String) (nowSec : Int)
      (args : GorilliMemeTradeArgs) (n : Int),
      computeMinAmountOut args.amountIn args.slippagePercentage = .ok n →
      gorilliMemeTrade sdk nowSec args =
        gorilliMemeTrade
          (fun r =>
            if r = memeTradeRequest (memeTokenOut args.action) args.amountIn n (nowSec + 600)
            then sdk r else .error (.nonError "unreached"))
          nowSec args) := by
  constructor
  · intro action amountIn minAmountOut deadline
    cases action <;>
      refine ⟨rfl, rfl, ?_, ?_⟩ <;>
      simp [memeTradeRequest, memeTokenOut, BRETT_ADDRESS, USDC_ADDRESS]
  · intro sdk nowSec args n h
    simp [gorilliMemeTrade, h]

/-- Claim C10 witness: the request shape at a concrete `SELL` trade, and the
single-request dependence at a concrete input. -/
theorem claim_C10_witness :
    (memeTradeRequest (memeTokenOut .SELL) "1000" 990 600).contractAddress = VAULT_ADDRESS
  ∧ (memeTradeRequest (memeTokenOut .SELL) "1000" 990 600).tokenOut = USDC_ADDRESS
  ∧ gorilliMemeTrade (fun _ => .ok "0xhash") 0
      { action := .SELL, amountIn := "1000", slippagePercentage := 1 } =
    gorilliMemeTrade
      (fun r =>
        if r = memeTradeRequest (memeTokenOut MemeAction.SELL) "1000" 990 (0 + 600)
        then (fun _ => (.ok "0xhash" : Except JsThrown String)) r
        else .error (.nonError "unreached"))
      0 { action := .SELL, amountIn := "1000", slippagePercentage := 1 } := by
  refine ⟨(claim_C10.1 .SELL "1000" 990 600).1, ?_, ?_⟩
  · exact ((claim_C10.1 .SELL "1000" 990 600).2.2.2).mpr rfl
  · exact claim_C10.2 (fun _ => .ok "0xhash") 0
      { action := .SELL, amountIn := "1000", slippagePercentage := 1 } 990 computeMinAmountOut_eval

/-- Claim C6: on every validated input whose SDK calls succeed, each action
returns a deterministic summary string containing every supplied parameter:
`createERC4626Vault`'s success message contains `name`, `symbol`,
`assetAddress`, `feeRecipient`, `depositFee` and `withdrawalFee`;
`gorilli_trade`'s contains `amount`, `fromAssetId` and `toAssetId`;
`gorilliMemeTrade`'s contains the action, `amountIn` and the computed
minimum output amount. -/
theorem claim_C6 :
    (∀ (pk vaultAddress : String) (args : CreateVaultArgs),
      createERC4626Vault { privateKey := some pk, deployOutcome := .ok vaultAddress } args =
        .ok (createVaultSuccessMessage args vaultAddress)
      ∧ jsIncludes (createVaultSuccessMessage args vaultAddress) args.name = true
      ∧ jsIncludes (createVaultSuccessMessage args vaultAddress) args.symbol = true
      ∧ jsIncludes (createVaultSuccessMessage args vaultAddress) args.assetAddress = true
      ∧ jsIncludes (createVaultSuccessMessage args vaultAddress) args.feeRecipient = true
      ∧ jsIncludes (createVaultSuccessMessage args vaultAddress) (toString args.depositFee) = true
      ∧ jsIncludes (createVaultSuccessMessage args vaultAddress) (toString args.withdrawalFee) = true)
  ∧ (∀ (result : TradeResult) (args : GorilliTradeArgs),
      jsIncludes (gorilli_trade (.ok result) args) args.amount = true
      ∧ jsIncludes (gorilli_trade (.ok result) args) args.fromAssetId = true
      ∧ jsIncludes (gorilli_trade (.ok result) args) args.toAssetId = true)
  ∧ (∀ (txHash : String) (nowSec : Int) (args : GorilliMemeTradeArgs) (n : Int),
      computeMinAmountOut args.amountIn args.slippagePercentage = .ok n →
      gorilliMemeTrade (fun _ => .ok txHash) nowSec args =
        .returned ("Successfully executed " ++ args.action.render ++ " trade. Transaction hash: " ++
          txHash ++ ". Input amount: " ++ args.amountIn ++ ", Minimum output amount: " ++
          toString n)
      ∧ jsIncludes ("Successfully executed " ++ args.action.render ++ " trade. Transaction hash: " ++
          txHash ++ ". Input amount: " ++ args.amountIn ++ ", Minimum output amount: " ++
          toString n) args.action.render = true
      ∧ jsIncludes ("Successfully executed " ++ args.action.render ++ " trade. Transaction hash: " ++
          txHash ++ ". Input amount: " ++ args.amountIn ++ ", Minimum output amount: " ++
          toString n) args.amountIn = true
      ∧ jsIncludes ("Successfully executed " ++ args.action.render ++ " trade. Transaction hash: " ++
          txHash ++ ". Input amount: " ++ args.amountIn ++ ", Minimum output amount: " ++
          toString n) (toString n) = true) := by
  refine ⟨?_, ?_, ?_⟩
  · intro pk vaultAddress args
    refine ⟨by simp [createERC4626Vault, createVaultBody, Except.map], ?_, ?_, ?_, ?_, ?_, ?_⟩ <;>
      (rw [jsIncludes_iff]
       simp only [createVaultSuccessMessage, String.data_append, List.append_assoc]
       repeat (first | exact List.infix_rfl | exact List.infix_append' _ _ _ | apply infix_skip))
  · intro result args
    refine ⟨?_, ?_, ?_⟩ <;>
      (rw [jsIncludes_iff]
       simp only [gorilli_trade, String.data_append, List.append_assoc]
       repeat (first | exact List.infix_rfl | exact List.infix_append' _ _ _ | apply infix_skip))
  · intro txHash nowSec args n h
    refine ⟨by simp [gorilliMemeTrade, h], ?_, ?_, ?_⟩ <;>
      (rw [jsIncludes_iff]
       simp only [String.data_append, List.append_assoc]
       repeat (first | exact List.infix_rfl | exact List.infix_append' _ _ _ | apply infix_skip))

/-- Claim C6 witness: the summary strings at a concrete successful trade. -/
theorem claim_C6_witness :
    gorilliMemeTrade (fun _ => .ok "0xhash") 0
      { action := .SELL, amountIn := "1000", slippagePercentage := 1 } =
      .returned ("Successfully executed " ++ (MemeAction.SELL).render ++ " trade. Transaction hash: " ++
        "0xhash" ++ ". Input amount: " ++ "1000" ++ ", Minimum output amount: " ++
        toString (990 : Int))
  ∧ jsIncludes ("Successfully executed " ++ (MemeAction.SELL).render ++ " trade. Transaction hash: " ++
      "0xhash" ++ ". Input amount: " ++ "1000" ++ ", Minimum output amount: " ++
      toString (990 : Int)) "1000" = true := by
  have h := claim_C6.2.2 "0xhash" 0
    { action := .SELL, amountIn := "1000", slippagePercentage := 1 } 990 computeMinAmountOut_eval
  exact ⟨h.1, h.2.2.1⟩
